import Mathlib

/-!
Verification of the 3D-printer Discord bot's status normalization,
state-diff and transition-notification engine.

The Python source is shallowly embedded: file names are `List Char`
(mirroring Python's character-sequence semantics of `str`), wall-clock
instants are `Int` seconds, optional/missing dict entries are `Option`,
and the per-device body of `update_status`'s notification loop becomes a
pure step function on explicit state.
-/

namespace PrinterBot

/-! ## String utilities mirroring the Python `str` operations used -/

/-- Python `"_@" in s` on the character list of `s`. -/
def containsMarker : List Char → Bool
  | [] => false
  | [_] => false
  | c1 :: c2 :: rest => (c1 == '_' && c2 == '@') || containsMarker (c2 :: rest)

/-- Python `s.split("_@")`: left-to-right scan, non-overlapping separators.
Always returns a non-empty list of pieces. -/
def splitMarker : List Char → List (List Char)
  | [] => [[]]
  | [c] => [[c]]
  | c1 :: c2 :: rest =>
      if c1 = '_' ∧ c2 = '@' then
        [] :: splitMarker rest
      else
        match splitMarker (c2 :: rest) with
        | [] => [[c1]]
        | h :: t => (c1 :: h) :: t

/-- Python `xs[-1]` on a non-empty list (default `[]` is never used). -/
def lastOf (ls : List (List Char)) : List Char := (ls.getLast?).getD []

/-- Python `s.endswith(e)`. -/
def endsWithChars (s e : List Char) : Bool :=
  decide (e.length ≤ s.length) && (s.drop (s.length - e.length) == e)

/-- The fixed, longest-first list of known g-code extensions from
`parse_username_from_filename` (already lowercase in the source). -/
def known_extensions : List (List Char) :=
  [".gcode.3mf".data, ".bgcode".data, ".gcode".data, ".gco".data, ".3mf".data]

/-- The extension-stripping loop of `parse_username_from_filename`:
`for ext in [...]: if after_at.lower().endswith(ext): return after_at[:-len(ext)]`,
falling through to `return after_at`.  The match is against the lowercased
characters, the slice is taken from the original (case-preserving). -/
def strip_ext_loop (t : List Char) : List (List Char) → List Char
  | [] => t
  | ext :: rest =>
      if endsWithChars (t.map Char.toLower) ext then
        t.take (t.length - ext.length)
      else
        strip_ext_loop t rest

/-- `parse_username_from_filename` on character lists: `None` when the
marker `_@` is absent, otherwise everything after the last `_@`
(`file_name.split("_@")[-1]`) with one known extension stripped. -/
def parse_username_chars (f : List Char) : Option (List Char) :=
  if containsMarker f then
    some (strip_ext_loop (lastOf (splitMarker f)) known_extensions)
  else
    none

/-- Source `parse_username_from_filename`, wrapped back to `String`. -/
def parse_username_from_filename (f : String) : Option String :=
  (parse_username_chars f.data).map fun l => String.mk l

/-! ## `format_time` -/

/-- Source `format_time(seconds)`: `None ↦ "unknown"`, nonpositive ↦ `"0m"`,
otherwise `divmod` into hours/minutes. For positive inputs Python floor
division agrees with `Int` division. -/
def format_time : Option Int → String
  | none => "unknown"
  | some s =>
      if s ≤ 0 then "0m"
      else
        let hours := s / 3600
        let minutes := (s % 3600) / 60
        if hours > 0 then toString hours ++ "h " ++ toString minutes ++ "m"
        else toString minutes ++ "m"

example : format_time (some 5400) = "1h 30m" := by decide
example : format_time (some 125) = "2m" := by decide
example : parse_username_from_filename "bracket_v3_@bob.smith.gcode" = some "bob.smith" := by decide
example : parse_username_from_filename "part.3mf" = none := by decide
example : parse_username_from_filename "x_@alice.gcode.3mf" = some "alice" := by decide

/-! ## Data model

`Status` is the common status dictionary produced by `get_printer_status`
(pull / PrusaLink) and `get_bambu_status` (push / MQTT cache) and consumed
by `update_status`.  A missing dict key and an explicit `None` value are
both `none` (Python `dict.get` does not distinguish them downstream).
States are the raw strings the source uses ("IDLE", "PRINTING", ...). -/

/-- The `job_data["file"]` sub-dictionary: the two optional name fields
that `get_file_name` consults. -/
structure JobData where
  display_name : Option String
  name : Option String
deriving DecidableEq

/-- A normalized per-poll status dictionary. -/
structure Status where
  state : String
  raw_bambu_state : Option String
  progress : Option Int
  time_remaining : Option Int
  time_printing : Option Int
  job_data : Option JobData
deriving DecidableEq

/-- One entry of `previous_states` as written at the end of the
`update_status` loop: `{"state", "file_name", "username", "time_printing"}`. -/
structure StateRecord where
  state : String
  file_name : Option String
  username : Option String
  time_printing : Option Int
deriving DecidableEq

inductive EventKind where
  | completed
  | failed
deriving DecidableEq

/-- A notification sent to the notification channel, abstracted to the
data it carries: the printer, the kind, the previous record's file name
and username, and the optional rendered duration string. -/
structure LifecycleEvent where
  kind : EventKind
  printer : String
  file_name : String
  username : Option String
  duration : Option String
deriving DecidableEq

/-! ## `get_file_name` -/

/-- Python `a or b` for optional strings with `b` a string:
`None` and `""` are falsy. -/
def strOr (a : Option String) (b : String) : String :=
  match a with
  | some s => if s = "" then b else s
  | none => b

/-- Source `get_file_name(status)`: `display_name or name or "Unknown file"`
from `job_data["file"]`, with `"Unknown file"` when `job_data` is missing,
`None`, or falsy (an empty dict also yields `"Unknown file"` through the
same `get` chain). -/
def get_file_name (status : Status) : String :=
  match status.job_data with
  | some jd => strOr jd.display_name (strOr jd.name "Unknown file")
  | none => "Unknown file"

/-! ## Per-device transition step

The body of the notification loop in `update_status` (lines 525-593) for
one device, as a pure function of the device's previous record
(`previous_states.get(printer_name)`), its session-start entry
(`print_start_times.get(printer_name)`), the current status, and the
wall-clock instant `now`.  It returns the updated record, the updated
session-start entry, and the optional notification. -/

/-- Python truthiness of `prev.get("time_printing")`: `None` and `0` are
falsy, any other number is truthy. -/
def pyTruthyTime (o : Option Int) : Bool :=
  match o with
  | some n => n != 0
  | none => false

def update_status_step (printerName : String) (prev : Option StateRecord)
    (startTime : Option Int) (status : Status) (now : Int) :
    Option StateRecord × Option Int × Option LifecycleEvent :=
  -- lines 520-521: file name / username are computed from the *current*
  -- status, only when it reports PRINTING
  let file_name : Option String :=
    if status.state = "PRINTING" then some (get_file_name status) else none
  let username : Option String :=
    match file_name with
    | some fn => parse_username_from_filename fn
    | none => none
  -- the record saved at line 588
  let newRecord : StateRecord :=
    { state := status.state, file_name := file_name, username := username,
      time_printing := status.time_printing }
  -- lines 531-532: UNKNOWN is skipped entirely (`continue`)
  if status.state = "UNKNOWN" then (prev, startTime, none)
  else
    match prev with
    | none =>
        -- line 535: transition into PRINTING records the start instant
        let startTime1 := if status.state = "PRINTING" then some now else startTime
        (some newRecord, startTime1, none)
    | some p =>
        if p.state = "PRINTING" then
          -- the line-535 condition `prev["state"] != "PRINTING"` is false
          -- here, so the start entry is not overwritten before the pop
          let bambu_finished : Bool := status.raw_bambu_state == some "FINISH"
          let reported_time := p.time_printing
          -- line 547: `print_start_times.pop(printer_name, None)` reads
          -- and removes the entry whenever the previous state was PRINTING
          let start_time := startTime
          let startTime2 : Option Int := none
          let duration_str : Option String :=
            if pyTruthyTime reported_time then some (format_time reported_time)
            else
              match start_time with
              | some st => some (format_time (some (now - st)))
              | none => none
          let event : Option LifecycleEvent :=
            if status.state = "IDLE" ∨ status.state = "READY" ∨
                status.state = "FINISHED" ∨ bambu_finished = true then
              some { kind := .completed, printer := printerName,
                     file_name := p.file_name.getD "Unknown file",
                     username := p.username, duration := duration_str }
            else if status.state = "ERROR" ∨ status.state = "STOPPED" then
              some { kind := .failed, printer := printerName,
                     file_name := p.file_name.getD "Unknown file",
                     username := p.username, duration := duration_str }
            else none
          (some newRecord, startTime2, event)
        else
          let startTime1 :=
            if status.state = "PRINTING" then some now else startTime
          (some newRecord, startTime1, none)

/-- Iterating `update_status_step` over a sequence of `(status, now)`
readings for one device, collecting the emitted notifications in order.
Device entries in the source's dictionaries are independent, so one
device's evolution is exactly this fold. -/
def update_status_run (printerName : String) :
    List (Status × Int) → Option StateRecord → Option Int →
    Option StateRecord × Option Int × List LifecycleEvent
  | [], prev, st => (prev, st, [])
  | (status, now) :: rest, prev, st =>
      let r := update_status_step printerName prev st status now
      let rest' := update_status_run printerName rest r.1 r.2.1
      (rest'.1, rest'.2.1, (r.2.2).toList ++ rest'.2.2)

/-! ## Pull adapter: `get_printer_status`

The two HTTP requests are modelled as oracle inputs: the primary
`/api/v1/status` request either fails with a transport error or returns
the parsed JSON fields, and the secondary `/api/v1/job` request either
fails or returns the job dictionary.  `get_printer_status` itself is a
total function of those outcomes — its `try/except` structure means it
never raises to the caller. -/

/-- How the primary status request can fail, mirroring the three `except`
arms: `requests.exceptions.ConnectionError`, `requests.exceptions.Timeout`,
and the catch-all `Exception` (which also covers `raise_for_status` and
JSON decoding errors). -/
inductive PrimaryFailure where
  | connectionError
  | timeout
  | otherError
deriving DecidableEq

/-- The fields `get_printer_status` reads from the primary response:
`status_data["printer"]["state"]` (absent ↦ the `"UNKNOWN"` default) and
the `status_data["job"]` entries. -/
structure ApiStatus where
  printer_state : Option String
  progress : Option Int
  time_remaining : Option Int
  time_printing : Option Int
deriving DecidableEq

/-- A status dictionary containing only `{"state": s}`. -/
def stateOnly (s : String) : Status :=
  { state := s, raw_bambu_state := none, progress := none,
    time_remaining := none, time_printing := none, job_data := none }

/-- Source `get_printer_status`: connection error / timeout ↦ `OFFLINE`,
any other failure ↦ `UNKNOWN`; on success the state defaults to
`"UNKNOWN"` when absent, and only a `PRINTING` state triggers the
secondary job request, whose failure sets `job_data = None` instead of
failing the poll. -/
def get_printer_status (primary : Except PrimaryFailure ApiStatus)
    (jobRequest : Except Unit JobData) : Status :=
  match primary with
  | .error .connectionError => stateOnly "OFFLINE"
  | .error .timeout => stateOnly "OFFLINE"
  | .error .otherError => stateOnly "UNKNOWN"
  | .ok sd =>
      let printer_state := sd.printer_state.getD "UNKNOWN"
      let base : Status :=
        { state := printer_state, raw_bambu_state := none,
          progress := sd.progress, time_remaining := sd.time_remaining,
          time_printing := sd.time_printing, job_data := none }
      if printer_state = "PRINTING" then
        match jobRequest with
        | .ok jd => { base with job_data := some jd }
        | .error _ => base
      else base

/-! ## Push adapter: `get_bambu_status` -/

/-- Python `s.split(".")` on character lists (used for
`str(state).split(".")[-1]`). -/
def splitDot : List Char → List (List Char)
  | [] => [[]]
  | c :: rest =>
      if c = '.' then [] :: splitDot rest
      else
        match splitDot rest with
        | [] => [[c]]
        | h :: t => (c :: h) :: t

/-- The fixed Bambu→Prusa state table of `get_bambu_status`, with the
`state_map.get(state_str, state_str)` passthrough default. -/
def bambu_state_map (s : String) : String :=
  if s = "IDLE" then "IDLE"
  else if s = "RUNNING" then "PRINTING"
  else if s = "PREPARE" then "PRINTING"
  else if s = "PAUSE" then "PAUSED"
  else if s = "FINISH" then "IDLE"
  else if s = "FAILED" then "ERROR"
  else if s = "UNKNOWN" then "UNKNOWN"
  else s

/-- The values `get_bambu_status` reads from the cached MQTT client.
`state` is `str(client.get_state())` with `none` for a falsy state;
`file_name` is `subtask_name() or get_file_name()` with `none` when both
are falsy. -/
structure BambuReading where
  state : Option String
  percentage : Option Int
  time_min : Option Int
  file_name : Option String
  current_layer : Int
  total_layers : Int
deriving DecidableEq

/-- Source `get_bambu_status`: no cached connection ↦ `OFFLINE`; a failure
while reading the client ↦ `UNKNOWN` (the catch-all `except`); otherwise
the state token is the last dot-component, mapped through the fixed table
with the raw token preserved in `raw_bambu_state`, minutes converted to
seconds, and `job_data` populated only for a truthy file name while
`PRINTING`.  No `time_printing` key is ever produced.  (The display-only
`layers` entry is not modelled; nothing downstream reads it.) -/
def get_bambu_status (conn : Option BambuReading) (readFails : Bool) : Status :=
  match conn with
  | none => stateOnly "OFFLINE"
  | some r =>
      if readFails then stateOnly "UNKNOWN"
      else
        let state_str : String :=
          match r.state with
          | none => "UNKNOWN"
          | some s => String.mk (lastOf (splitDot s.data))
        let normalized_state := bambu_state_map state_str
        let raw_state := state_str
        let time_remaining_sec := r.time_min.map fun m => m * 60
        let base : Status :=
          { state := normalized_state, raw_bambu_state := some raw_state,
            progress := r.percentage, time_remaining := time_remaining_sec,
            time_printing := none, job_data := none }
        if normalized_state = "PRINTING" then
          match r.file_name with
          | some fn =>
              if fn = "" then base
              else { base with job_data := some { display_name := some fn, name := none } }
          | none => base
        else base

/-! ## Lemmas about the marker split

These justify reading `file_name.split("_@")[-1]` as "everything after
the last occurrence of the marker". -/

/-- Two-step list induction matching the lookahead of `splitMarker` and
`containsMarker`. -/
def charListTwoStep {P : List Char → Prop} (h0 : P [])
    (h1 : ∀ c, P [c])
    (h2 : ∀ c1 c2 rest, P rest → P (c2 :: rest) → P (c1 :: c2 :: rest)) :
    ∀ l, P l
  | [] => h0
  | [c] => h1 c
  | c1 :: c2 :: rest =>
      h2 c1 c2 rest (charListTwoStep h0 h1 h2 rest)
        (charListTwoStep h0 h1 h2 (c2 :: rest))

theorem splitMarker_ne_nil (l : List Char) : splitMarker l ≠ [] := by
  induction l using charListTwoStep with
  | h0 => simp [splitMarker]
  | h1 c => simp [splitMarker]
  | h2 c1 c2 rest ih1 ih2 =>
      simp only [splitMarker]
      split
      · simp
      · split <;> simp

theorem lastOf_cons_of_ne_nil (a : List Char) (ls : List (List Char))
    (h : ls ≠ []) : lastOf (a :: ls) = lastOf ls := by
  cases ls with
  | nil => exact absurd rfl h
  | cons b t => simp [lastOf, List.getLast?_cons_cons]

theorem contains_append_marker (p u : List Char) :
    containsMarker (p ++ '_' :: '@' :: u) = true := by
  induction p using charListTwoStep with
  | h0 => simp [containsMarker]
  | h1 c => simp [containsMarker]
  | h2 c1 c2 rest ih1 ih2 => simpa [containsMarker] using Or.inr ih2

theorem splitMarker_of_not_contains (u : List Char)
    (h : containsMarker u = false) : splitMarker u = [u] := by
  induction u using charListTwoStep with
  | h0 => simp [splitMarker]
  | h1 c => simp [splitMarker]
  | h2 c1 c2 rest ih1 ih2 =>
      simp only [containsMarker, Bool.or_eq_false_iff] at h
      have hne : ¬(c1 = '_' ∧ c2 = '@') := by
        intro hc
        rw [hc.1, hc.2] at h
        simp at h
      rw [splitMarker, if_neg hne, ih2 h.2]

theorem splitMarker_length_of_contains (l : List Char)
    (h : containsMarker l = true) : 2 ≤ (splitMarker l).length := by
  induction l using charListTwoStep with
  | h0 => simp [containsMarker] at h
  | h1 c => simp [containsMarker] at h
  | h2 c1 c2 rest ih1 ih2 =>
      simp only [containsMarker, Bool.or_eq_true] at h
      rw [splitMarker]
      by_cases hc : c1 = '_' ∧ c2 = '@'
      · rw [if_pos hc]
        cases hr : splitMarker rest with
        | nil => exact absurd hr (splitMarker_ne_nil rest)
        | cons a t => simp [hr]
      · rw [if_neg hc]
        have htail : containsMarker (c2 :: rest) = true := by
          rcases h with h | h
          · simp only [Bool.and_eq_true, beq_iff_eq] at h
            exact absurd h hc
          · exact h
        have h2 := ih2 htail
        cases hr : splitMarker (c2 :: rest) with
        | nil => exact absurd hr (splitMarker_ne_nil _)
        | cons a t =>
            rw [hr] at h2
            simp only [hr, List.length_cons] at h2 ⊢
            omega

theorem lastOf_split_append (p u : List Char) :
    lastOf (splitMarker (p ++ '_' :: '@' :: u)) = lastOf (splitMarker u) := by
  induction p using charListTwoStep with
  | h0 =>
      simp only [List.nil_append]
      rw [splitMarker, if_pos ⟨rfl, rfl⟩]
      exact lastOf_cons_of_ne_nil _ _ (splitMarker_ne_nil u)
  | h1 c =>
      have e1 : splitMarker ('_' :: '@' :: u) = [] :: splitMarker u := by
        rw [splitMarker, if_pos ⟨rfl, rfl⟩]
      have e2 : splitMarker (c :: '_' :: '@' :: u) = [c] :: splitMarker u := by
        rw [splitMarker, if_neg (by intro hc; exact absurd hc.2 (by decide)), e1]
      simp only [List.cons_append, List.nil_append]
      rw [e2, lastOf_cons_of_ne_nil _ _ (splitMarker_ne_nil u)]
  | h2 c1 c2 rest ih1 ih2 =>
      simp only [List.cons_append] at ih2 ⊢
      rw [splitMarker]
      split
      · rw [← ih1]
        exact lastOf_cons_of_ne_nil _ _ (splitMarker_ne_nil _)
      · have hcont : containsMarker (c2 :: (rest ++ '_' :: '@' :: u)) = true :=
          contains_append_marker (c2 :: rest) u
        have hlen := splitMarker_length_of_contains _ hcont
        cases hr : splitMarker (c2 :: (rest ++ '_' :: '@' :: u)) with
        | nil => exact absurd hr (splitMarker_ne_nil _)
        | cons a t =>
            rw [hr] at hlen
            have ht : t ≠ [] := by
              intro h
              rw [h] at hlen
              simp at hlen
            rw [hr] at ih2
            simp only [hr]
            rw [lastOf_cons_of_ne_nil _ _ ht, ← ih2, lastOf_cons_of_ne_nil _ _ ht]

theorem strip_ext_loop_no_match (t : List Char) (exts : List (List Char))
    (h : ∀ e ∈ exts, endsWithChars (t.map Char.toLower) e = false) :
    strip_ext_loop t exts = t := by
  induction exts with
  | nil => rfl
  | cons e rest ih =>
      rw [strip_ext_loop, if_neg (by simp [h e (by simp)])]
      exact ih fun e' he' => h e' (by simp [he'])

/-- For a file name decomposed as `p ++ "_@" ++ u` with no further marker
inside `u`, the parsed username is `u` with one known extension
stripped: the marker shown is the last occurrence. -/
theorem parse_after_last_marker (p u : List Char)
    (h : containsMarker u = false) :
    parse_username_chars (p ++ '_' :: '@' :: u) =
      some (strip_ext_loop u known_extensions) := by
  rw [parse_username_chars, if_pos (contains_append_marker p u),
    lastOf_split_append, splitMarker_of_not_contains u h]
  simp [lastOf]

/-! ## Shape of the step after a `PRINTING` record

When the previous record reported `PRINTING` and the current reading is
not `UNKNOWN`, the step clears the session-start entry and the emitted
notification is determined by the completion/failure classification, with
all event fields drawn from the previous record. -/

/-- The duration string the step resolves: the previous record's truthy
`time_printing` first, else the popped session start, else nothing. -/
def resolvedDuration (p : StateRecord) (st : Option Int) (now : Int) :
    Option String :=
  if pyTruthyTime p.time_printing = true then some (format_time p.time_printing)
  else st.map fun s => format_time (some (now - s))

theorem step_event_shape (name : String) (p : StateRecord) (st : Option Int)
    (status : Status) (now : Int) (hp : p.state = "PRINTING")
    (hu : status.state ≠ "UNKNOWN") :
    (update_status_step name (some p) st status now).2.1 = none ∧
    (update_status_step name (some p) st status now).2.2 =
      (if status.state = "IDLE" ∨ status.state = "READY" ∨
          status.state = "FINISHED" ∨ status.raw_bambu_state = some "FINISH" then
        some { kind := EventKind.completed, printer := name,
               file_name := p.file_name.getD "Unknown file",
               username := p.username, duration := resolvedDuration p st now }
      else if status.state = "ERROR" ∨ status.state = "STOPPED" then
        some { kind := EventKind.failed, printer := name,
               file_name := p.file_name.getD "Unknown file",
               username := p.username, duration := resolvedDuration p st now }
      else none) := by
  cases st with
  | none =>
      unfold update_status_step resolvedDuration
      rw [if_neg hu]
      dsimp only
      rw [if_pos hp]
      constructor
      · rfl
      · split_ifs <;> simp_all [beq_iff_eq]
  | some s =>
      unfold update_status_step resolvedDuration
      rw [if_neg hu]
      dsimp only
      rw [if_pos hp]
      constructor
      · rfl
      · split_ifs <;> simp_all [beq_iff_eq]

/-- A notification can only come out of a non-`UNKNOWN` reading: the
`UNKNOWN` guard short-circuits the whole iteration. -/
theorem event_requires_not_unknown (name : String) (prev : Option StateRecord)
    (st : Option Int) (status : Status) (now : Int) (ev : LifecycleEvent)
    (hev : (update_status_step name prev st status now).2.2 = some ev) :
    status.state ≠ "UNKNOWN" := by
  intro h
  unfold update_status_step at hev
  rw [if_pos h] at hev
  simp at hev

/-! ## Claim theorems -/

/-- C1 (corrected): after a `PRINTING` record and a non-`UNKNOWN` current
reading, a Completed event fires iff the current state is `IDLE`, `READY`
or `FINISHED` or the raw backend token is `"FINISH"`; a Failed event
fires iff the current state is `ERROR` or `STOPPED` and the completion
condition does not hold (completion is checked first); otherwise no event
fires.  The claim's completion set {Idle, Finished} omits `READY`. -/
theorem C1_exit_classification (name : String) (p : StateRecord)
    (st : Option Int) (status : Status) (now : Int)
    (hp : p.state = "PRINTING") (hu : status.state ≠ "UNKNOWN") :
    (((update_status_step name (some p) st status now).2.2).map LifecycleEvent.kind
        = some EventKind.completed ↔
      (status.state = "IDLE" ∨ status.state = "READY" ∨ status.state = "FINISHED" ∨
        status.raw_bambu_state = some "FINISH"))
    ∧ (((update_status_step name (some p) st status now).2.2).map LifecycleEvent.kind
        = some EventKind.failed ↔
      ((status.state = "ERROR" ∨ status.state = "STOPPED") ∧
        ¬(status.state = "IDLE" ∨ status.state = "READY" ∨ status.state = "FINISHED" ∨
          status.raw_bambu_state = some "FINISH")))
    ∧ ((update_status_step name (some p) st status now).2.2 = none ↔
      (¬(status.state = "IDLE" ∨ status.state = "READY" ∨ status.state = "FINISHED" ∨
          status.raw_bambu_state = some "FINISH") ∧
        ¬(status.state = "ERROR" ∨ status.state = "STOPPED"))) := by
  rw [(step_event_shape name p st status now hp hu).2]
  by_cases hC : status.state = "IDLE" ∨ status.state = "READY" ∨
      status.state = "FINISHED" ∨ status.raw_bambu_state = some "FINISH"
  · simp [hC]
  · by_cases hF : status.state = "ERROR" ∨ status.state = "STOPPED"
    · simp [hC, hF]
    · simp [hC, hF]

/-- C1 counterexample: the code also treats a current state of `"READY"`
as a completion (the claim's set {Idle, Finished} predicts no event), and
on a reading with state `"ERROR"` carrying the raw `"FINISH"` token the
code emits Completed where the claim's failure clause demands Failed. -/
theorem C1_counterexample :
    (((update_status_step "P" (some ⟨"PRINTING", some "f.gcode", none, none⟩) none
        (stateOnly "READY") 0).2.2).map LifecycleEvent.kind = some EventKind.completed
      ∧ (stateOnly "READY").state ≠ "IDLE"
      ∧ (stateOnly "READY").state ≠ "FINISHED"
      ∧ (stateOnly "READY").raw_bambu_state ≠ some "FINISH"
      ∧ (stateOnly "READY").state ≠ "ERROR"
      ∧ (stateOnly "READY").state ≠ "STOPPED")
    ∧ (((update_status_step "P" (some ⟨"PRINTING", some "f.gcode", none, none⟩) none
        { stateOnly "ERROR" with raw_bambu_state := some "FINISH" } 0).2.2).map
          LifecycleEvent.kind = some EventKind.completed
      ∧ { stateOnly "ERROR" with raw_bambu_state := some "FINISH" : Status }.state
          = "ERROR") := by decide

theorem C1_exit_classification_witness :
    ((update_status_step "P" (some ⟨"PRINTING", some "f.gcode", none, none⟩) none
      (stateOnly "IDLE") 0).2.2).map LifecycleEvent.kind = some EventKind.completed :=
  ((C1_exit_classification "P" ⟨"PRINTING", some "f.gcode", none, none⟩ none
      (stateOnly "IDLE") 0 rfl (by decide)).1).mpr (Or.inl rfl)

/-- C2 (corrected): the duration of an emitted event is the previous
record's `time_printing` when that value is present *and nonzero* (Python
truthiness), else the wall-clock elapsed time since the session start
when one exists, else omitted; a previous `time_printing` of 5400 always
renders as "1h 30m" regardless of the wall clock. -/
theorem C2_duration_resolution (name : String) (p : StateRecord)
    (st : Option Int) (status : Status) (now : Int) (ev : LifecycleEvent)
    (hp : p.state = "PRINTING")
    (hev : (update_status_step name (some p) st status now).2.2 = some ev) :
    (∀ n : Int, p.time_printing = some n → n ≠ 0 →
      ev.duration = some (format_time (some n)))
    ∧ ((p.time_printing = none ∨ p.time_printing = some 0) →
        ∀ s : Int, st = some s →
          ev.duration = some (format_time (some (now - s))))
    ∧ ((p.time_printing = none ∨ p.time_printing = some 0) → st = none →
        ev.duration = none)
    ∧ (p.time_printing = some 5400 → ev.duration = some "1h 30m") := by
  have hu := event_requires_not_unknown name (some p) st status now ev hev
  rw [(step_event_shape name p st status now hp hu).2] at hev
  have hdur : ev.duration = resolvedDuration p st now := by
    split_ifs at hev
    · have h' := Option.some.inj hev
      subst h'
      rfl
    · have h' := Option.some.inj hev
      subst h'
      rfl
  refine ⟨?_, ?_, ?_, ?_⟩
  · intro n hn hnz
    rw [hdur, resolvedDuration, hn]
    simp [pyTruthyTime, hnz]
  · intro h0 s hs
    subst hs
    rw [hdur, resolvedDuration]
    rcases h0 with h0 | h0 <;> rw [h0] <;> simp [pyTruthyTime]
  · intro h0 hn
    subst hn
    rw [hdur, resolvedDuration]
    rcases h0 with h0 | h0 <;> rw [h0] <;> simp [pyTruthyTime]
  · intro h4
    rw [hdur, resolvedDuration, h4, if_pos (by decide)]
    decide

/-- C2 counterexample: a previous record whose backend-reported
`time_printing` is present but equal to 0 is skipped (Python truthiness),
and the duration falls through to the wall-clock fallback: the event
renders "2m" where the claim's priority-1 rule demands
`format_time 0 = "0m"`. -/
theorem C2_counterexample :
    ((update_status_step "P" (some ⟨"PRINTING", some "f.gcode", none, some 0⟩)
        (some 0) (stateOnly "IDLE") 120).2.2).map (fun e => e.duration)
      = some (some "2m")
    ∧ format_time (some 0) = "0m" := by decide

theorem C2_duration_resolution_witness :
    (update_status_step "P" (some ⟨"PRINTING", some "f.gcode", none, some 5400⟩)
        none (stateOnly "IDLE") 0).2.2 =
      some ⟨EventKind.completed, "P", "f.gcode", none, some "1h 30m"⟩
    ∧ (⟨EventKind.completed, "P", "f.gcode", none, some "1h 30m"⟩ :
        LifecycleEvent).duration = some "1h 30m" :=
  ⟨by decide,
    (C2_duration_resolution "P" ⟨"PRINTING", some "f.gcode", none, some 5400⟩
      none (stateOnly "IDLE") 0
      ⟨EventKind.completed, "P", "f.gcode", none, some "1h 30m"⟩ rfl
      (by decide)).2.2.2 rfl⟩

/-- C3 (confirmed): an `UNKNOWN` reading leaves the stored record and the
session-start entry unchanged and produces no event. -/
theorem C3_unknown_skip (name : String) (prev : Option StateRecord)
    (st : Option Int) (status : Status) (now : Int)
    (hu : status.state = "UNKNOWN") :
    update_status_step name prev st status now = (prev, st, none) := by
  unfold update_status_step
  rw [if_pos hu]

theorem C3_unknown_skip_witness :
    update_status_step "P" (some ⟨"PRINTING", some "f.gcode", none, none⟩)
      (some 5) (stateOnly "UNKNOWN") 9 =
    (some ⟨"PRINTING", some "f.gcode", none, none⟩, some 5, none) :=
  C3_unknown_skip "P" (some ⟨"PRINTING", some "f.gcode", none, none⟩)
    (some 5) (stateOnly "UNKNOWN") 9 rfl

/-- C6 (confirmed): every emitted event carries the previous record's
file name and username — for any current reading whatsoever, so the
current reading's own job data never leaks into the notification. -/
theorem C6_event_uses_previous_record (name : String) (p : StateRecord)
    (st : Option Int) (status : Status) (now : Int) (ev : LifecycleEvent)
    (hp : p.state = "PRINTING")
    (hev : (update_status_step name (some p) st status now).2.2 = some ev) :
    ev.printer = name ∧ ev.file_name = p.file_name.getD "Unknown file" ∧
    ev.username = p.username := by
  have hu := event_requires_not_unknown name (some p) st status now ev hev
  rw [(step_event_shape name p st status now hp hu).2] at hev
  split_ifs at hev
  · have h' := Option.some.inj hev
    subst h'
    exact ⟨rfl, rfl, rfl⟩
  · have h' := Option.some.inj hev
    subst h'
    exact ⟨rfl, rfl, rfl⟩

theorem C6_event_uses_previous_record_witness :
    (⟨EventKind.completed, "P", "old_@bob.gcode", some "bob", none⟩ :
        LifecycleEvent).printer = "P"
    ∧ (⟨EventKind.completed, "P", "old_@bob.gcode", some "bob", none⟩ :
        LifecycleEvent).file_name = (some "old_@bob.gcode" : Option String).getD "Unknown file"
    ∧ (⟨EventKind.completed, "P", "old_@bob.gcode", some "bob", none⟩ :
        LifecycleEvent).username = some "bob" :=
  C6_event_uses_previous_record "P" ⟨"PRINTING", some "old_@bob.gcode", some "bob", none⟩
    none (stateOnly "IDLE") 0
    ⟨EventKind.completed, "P", "old_@bob.gcode", some "bob", none⟩ rfl (by decide)

/-- C5 (confirmed): `extractUser` returns nothing without a `"_@"` marker;
with one, it returns everything after the last marker occurrence with one
known extension stripped, matched case-insensitively and longest-first
while preserving the result's case, untouched when nothing matches. -/
theorem C5_extract_user :
    (∀ f : String, containsMarker f.data = false →
      parse_username_from_filename f = none)
    ∧ (∀ p u : List Char, containsMarker u = false →
        parse_username_chars (p ++ '_' :: '@' :: u) =
          some (strip_ext_loop u known_extensions))
    ∧ (∀ t : List Char,
        (∀ e ∈ known_extensions, endsWithChars (t.map Char.toLower) e = false) →
        strip_ext_loop t known_extensions = t)
    ∧ parse_username_from_filename "bracket_v3_@bob.smith.gcode" = some "bob.smith"
    ∧ parse_username_from_filename "part.3mf" = none
    ∧ parse_username_from_filename "x_@alice.gcode.3mf" = some "alice"
    ∧ parse_username_from_filename "x_@Bob.Smith.GCODE" = some "Bob.Smith"
    ∧ parse_username_from_filename "a_@b_@carol.gco" = some "carol"
    ∧ parse_username_from_filename "y_@dave.gco.gco" = some "dave.gco" := by
  refine ⟨?_, ?_, ?_, by decide, by decide, by decide, by decide, by decide, by decide⟩
  · intro f h
    simp [parse_username_from_filename, parse_username_chars, h]
  · exact parse_after_last_marker
  · exact fun t h => strip_ext_loop_no_match t known_extensions h

theorem C5_extract_user_witness :
    containsMarker "part.3mf".data = false ∧
    parse_username_from_filename "part.3mf" = none :=
  ⟨by decide, C5_extract_user.1 "part.3mf" (by decide)⟩

/-- C7 (confirmed): the pull adapter is a total function of the transport
outcomes; connection failure and timeout map to `OFFLINE`, any other
failure maps to `UNKNOWN`, and a failing secondary job request on a
`PRINTING` reading leaves the state `PRINTING` with the job data omitted. -/
theorem C7_pull_adapter_error_mapping (primary : Except PrimaryFailure ApiStatus)
    (jobRequest : Except Unit JobData) :
    ((primary = .error .connectionError ∨ primary = .error .timeout) →
      (get_printer_status primary jobRequest).state = "OFFLINE")
    ∧ (primary = .error .otherError →
      (get_printer_status primary jobRequest).state = "UNKNOWN")
    ∧ (∀ sd : ApiStatus, primary = .ok sd → sd.printer_state = some "PRINTING" →
        jobRequest = .error () →
          (get_printer_status primary jobRequest).state = "PRINTING" ∧
          (get_printer_status primary jobRequest).job_data = none) := by
  refine ⟨?_, ?_, ?_⟩
  · rintro (rfl | rfl) <;> rfl
  · rintro rfl
    rfl
  · intro sd hpr hps hjr
    subst hpr
    subst hjr
    simp [get_printer_status, hps]

theorem C7_pull_adapter_error_mapping_witness :
    (get_printer_status (.error .timeout) (.ok ⟨none, none⟩)).state = "OFFLINE"
    ∧ (get_printer_status (.ok ⟨some "PRINTING", none, none, none⟩)
        (.error ())).state = "PRINTING"
    ∧ (get_printer_status (.ok ⟨some "PRINTING", none, none, none⟩)
        (.error ())).job_data = none := by
  have h1 := C7_pull_adapter_error_mapping (.error .timeout) (.ok ⟨none, none⟩)
  have h2 := C7_pull_adapter_error_mapping
    (.ok ⟨some "PRINTING", none, none, none⟩) (.error ())
  exact ⟨h1.1 (Or.inr rfl),
    (h2.2.2 ⟨some "PRINTING", none, none, none⟩ rfl rfl rfl).1,
    (h2.2.2 ⟨some "PRINTING", none, none, none⟩ rfl rfl rfl).2⟩

/-- C9 (confirmed): a `PRINTING` reading without job data stores the
literal `"Unknown file"` placeholder in the record, and a later event
from such a record carries that placeholder as its file name. -/
theorem C9_unknown_file_placeholder :
    (∀ status : Status, status.job_data = none →
      get_file_name status = "Unknown file")
    ∧ (∀ status : Status, status.job_data = some ⟨none, none⟩ →
        get_file_name status = "Unknown file")
    ∧ (∀ (name : String) (prev : Option StateRecord) (st : Option Int)
        (status : Status) (now : Int), status.state = "PRINTING" →
        status.job_data = none →
        ((update_status_step name prev st status now).1).map StateRecord.file_name
          = some (some "Unknown file"))
    ∧ (∀ (name : String) (p : StateRecord) (st : Option Int) (status : Status)
        (now : Int) (ev : LifecycleEvent), p.state = "PRINTING" →
        p.file_name = some "Unknown file" →
        (update_status_step name (some p) st status now).2.2 = some ev →
        ev.file_name = "Unknown file") := by
  refine ⟨?_, ?_, ?_, ?_⟩
  · intro status h
    simp [get_file_name, h]
  · intro status h
    simp [get_file_name, h, strOr]
  · intro name prev st status now hs hj
    unfold update_status_step
    rw [if_neg (by rw [hs]; decide)]
    cases prev <;> dsimp only <;> split_ifs <;> simp [hs, get_file_name, hj]
  · intro name p st status now ev hp hfn hev
    have hu := event_requires_not_unknown name (some p) st status now ev hev
    rw [(step_event_shape name p st status now hp hu).2] at hev
    split_ifs at hev
    · have h' := Option.some.inj hev
      subst h'
      simp [hfn]
    · have h' := Option.some.inj hev
      subst h'
      simp [hfn]

theorem C9_unknown_file_placeholder_witness :
    get_file_name (stateOnly "PRINTING") = "Unknown file" :=
  C9_unknown_file_placeholder.1 (stateOnly "PRINTING") rfl

/-- C10 (confirmed): the push adapter never produces a `time_printing`
field, so after a push-backend `PRINTING` record (whose stored
`time_printing` is `none`) an event's duration comes from the session
wall-clock fallback or is omitted — never from priority source 1. -/
theorem C10_push_no_reported_time :
    (∀ (conn : Option BambuReading) (readFails : Bool),
      (get_bambu_status conn readFails).time_printing = none)
    ∧ (∀ (name : String) (p : StateRecord) (st : Option Int) (status : Status)
        (now : Int) (ev : LifecycleEvent), p.state = "PRINTING" →
        p.time_printing = none →
        (update_status_step name (some p) st status now).2.2 = some ev →
        ev.duration = st.map fun s => format_time (some (now - s))) := by
  constructor
  · intro conn readFails
    cases conn with
    | none => rfl
    | some r =>
        unfold get_bambu_status
        dsimp only
        repeat' split
        all_goals rfl
  · intro name p st status now ev hp htp hev
    have hu := event_requires_not_unknown name (some p) st status now ev hev
    rw [(step_event_shape name p st status now hp hu).2] at hev
    split_ifs at hev
    · have h' := Option.some.inj hev
      subst h'
      show resolvedDuration p st now = _
      rw [resolvedDuration, htp]
      simp [pyTruthyTime]
    · have h' := Option.some.inj hev
      subst h'
      show resolvedDuration p st now = _
      rw [resolvedDuration, htp]
      simp [pyTruthyTime]

theorem C10_push_no_reported_time_witness :
    (get_bambu_status none false).time_printing = none
    ∧ (⟨EventKind.completed, "P", "f.gcode", none, some "1m"⟩ :
        LifecycleEvent).duration =
      (some 0 : Option Int).map fun s => format_time (some (60 - s)) :=
  ⟨C10_push_no_reported_time.1 none false,
    C10_push_no_reported_time.2 "P" ⟨"PRINTING", some "f.gcode", none, none⟩
      (some 0) (stateOnly "IDLE") 60
      ⟨EventKind.completed, "P", "f.gcode", none, some "1m"⟩ rfl rfl (by decide)⟩

/-- C4 (code bug): `print_start_times.pop` runs on *every* cycle whose
previous record was `PRINTING`, not only when an event fires.  A
Printing→Printing cycle (an ongoing print) clears the session-start entry
without emitting anything, so a print spanning more than one poll
interval reaches completion with no session start left and its duration
is omitted — the wall-clock fallback documented for push backends only
survives prints that end by the very next poll, as the contrast between
the three-cycle and two-cycle runs shows. -/
theorem C4_session_cleared_without_event :
    ((update_status_step "P" (some ⟨"PRINTING", some "f.gcode", none, none⟩)
        (some 100) (stateOnly "PRINTING") 130).2.1 = none
      ∧ (update_status_step "P" (some ⟨"PRINTING", some "f.gcode", none, none⟩)
        (some 100) (stateOnly "PRINTING") 130).2.2 = none)
    ∧ ((update_status_run "P"
        [(stateOnly "PRINTING", 0), (stateOnly "PRINTING", 30), (stateOnly "IDLE", 60)]
        none none).2.2).map (fun e => e.duration) = [none]
    ∧ ((update_status_run "P"
        [(stateOnly "PRINTING", 0), (stateOnly "IDLE", 60)]
        none none).2.2).map (fun e => e.duration) = [some "1m"] := by decide

/-! ## Replay invariance (C8)

Two runs over the same readings at different wall-clock instants agree on
everything except the wall-clock-derived duration values.  `eraseDuration`
forgets a duration's value but keeps its presence. -/

/-- Forget an event's duration value, keeping whether one is present. -/
def eraseDuration (e : LifecycleEvent) : LifecycleEvent :=
  { e with duration := e.duration.map fun _ => "" }

/-- The record stored by a non-`UNKNOWN` step, as a function of the
current status alone. -/
def recordOf (status : Status) : StateRecord :=
  { state := status.state,
    file_name :=
      if status.state = "PRINTING" then some (get_file_name status) else none,
    username :=
      if status.state = "PRINTING"
        then parse_username_from_filename (get_file_name status) else none,
    time_printing := status.time_printing }

theorem step_fst_not_unknown (name : String) (prev : Option StateRecord)
    (st : Option Int) (status : Status) (now : Int)
    (hu : status.state ≠ "UNKNOWN") :
    (update_status_step name prev st status now).1 = some (recordOf status) := by
  unfold update_status_step recordOf
  rw [if_neg hu]
  by_cases hs : status.state = "PRINTING" <;>
    cases prev <;> dsimp only <;> split_ifs <;> simp [hs]

theorem resolvedDuration_isSome (p : StateRecord) (st : Option Int) (now : Int) :
    (resolvedDuration p st now).isSome =
      (pyTruthyTime p.time_printing || st.isSome) := by
  rw [resolvedDuration]
  split_ifs with hT
  · simp [hT]
  · simp only [Bool.not_eq_true] at hT
    simp [hT, Option.isSome_map]

theorem map_const_eq_of_isSome_eq {o1 o2 : Option String}
    (h : o1.isSome = o2.isSome) :
    o1.map (fun _ => "") = o2.map (fun _ => "") := by
  cases o1 <;> cases o2 <;> simp_all

/-- One step at two different wall-clock instants, from session entries
that agree on presence: same stored record, same session-entry presence,
and the same event up to the duration value. -/
theorem step_wallclock_invariance (name : String) (prev : Option StateRecord)
    (st1 st2 : Option Int) (status : Status) (now1 now2 : Int)
    (h : st1.isSome = st2.isSome) :
    (update_status_step name prev st1 status now1).1 =
      (update_status_step name prev st2 status now2).1
    ∧ ((update_status_step name prev st1 status now1).2.1).isSome =
      ((update_status_step name prev st2 status now2).2.1).isSome
    ∧ ((update_status_step name prev st1 status now1).2.2).map eraseDuration =
      ((update_status_step name prev st2 status now2).2.2).map eraseDuration := by
  by_cases hu : status.state = "UNKNOWN"
  · simp [update_status_step, hu, h]
  · refine ⟨?_, ?_, ?_⟩
    · rw [step_fst_not_unknown name prev st1 status now1 hu,
        step_fst_not_unknown name prev st2 status now2 hu]
    · cases prev with
      | none =>
          unfold update_status_step
          simp only [if_neg hu]
          by_cases hs : status.state = "PRINTING" <;> simp [hs, h]
      | some p =>
          by_cases hp : p.state = "PRINTING"
          · rw [(step_event_shape name p st1 status now1 hp hu).1,
              (step_event_shape name p st2 status now2 hp hu).1]
          · unfold update_status_step
            simp only [if_neg hu]
            simp only [if_neg hp]
            by_cases hs : status.state = "PRINTING" <;> simp [hs, h]
    · cases prev with
      | none =>
          unfold update_status_step
          simp only [if_neg hu]
      | some p =>
          by_cases hp : p.state = "PRINTING"
          · rw [(step_event_shape name p st1 status now1 hp hu).2,
              (step_event_shape name p st2 status now2 hp hu).2]
            have hd : (resolvedDuration p st1 now1).map (fun _ => "") =
                (resolvedDuration p st2 now2).map (fun _ => "") :=
              map_const_eq_of_isSome_eq
                (by rw [resolvedDuration_isSome, resolvedDuration_isSome, h])
            split_ifs <;>
              simp only [Option.map_some', Option.map_none', eraseDuration] <;>
              simp [hd]
          · unfold update_status_step
            simp only [if_neg hu]
            simp only [if_neg hp]

/-- Folding over a reading sequence: the event traces of two runs over the
same statuses agree up to duration values, from any common previous record
and session entries agreeing on presence. -/
theorem run_wallclock_invariance (name : String) :
    ∀ (l1 l2 : List (Status × Int)) (prev : Option StateRecord)
      (st1 st2 : Option Int), l1.map Prod.fst = l2.map Prod.fst →
      st1.isSome = st2.isSome →
      ((update_status_run name l1 prev st1).2.2).map eraseDuration =
        ((update_status_run name l2 prev st2).2.2).map eraseDuration := by
  intro l1
  induction l1 with
  | nil =>
      intro l2 prev st1 st2 hmap h
      have : l2 = [] := by
        cases l2 with
        | nil => rfl
        | cons b t => simp at hmap
      subst this
      rfl
  | cons a rest ih =>
      intro l2 prev st1 st2 hmap h
      cases l2 with
      | nil => simp at hmap
      | cons b rest2 =>
          obtain ⟨sa, na⟩ := a
          obtain ⟨sb, nb⟩ := b
          simp only [List.map_cons, List.cons.injEq] at hmap
          obtain ⟨hab, hrest⟩ := hmap
          subst hab
          have hs := step_wallclock_invariance name prev st1 st2 sa na nb h
          simp only [update_status_run]
          rw [List.map_append, List.map_append]
          congr 1
          · have he := hs.2.2
            cases h1 : (update_status_step name prev st1 sa na).2.2 <;>
              cases h2 : (update_status_step name prev st2 sa nb).2.2 <;>
              rw [h1, h2] at he <;> simp_all
          · rw [hs.1]
            exact ih rest2 (update_status_step name prev st2 sa nb).1
              (update_status_step name prev st1 sa na).2.1
              (update_status_step name prev st2 sa nb).2.1 hrest hs.2.1

/-- C8 (corrected): replaying the same reading sequence from a fresh
store reproduces the same events — kinds, devices, file names, users and
duration *presence* — but duration values resolved from the wall clock
depend on the poll instants, so only the duration-erased traces coincide
for arbitrary instants. -/
theorem C8_replay_invariance (name : String) (l1 l2 : List (Status × Int))
    (hmap : l1.map Prod.fst = l2.map Prod.fst) :
    ((update_status_run name l1 none none).2.2).map eraseDuration =
      ((update_status_run name l2 none none).2.2).map eraseDuration :=
  run_wallclock_invariance name l1 l2 none none none hmap rfl

/-- C8 counterexample: the same two readings replayed at different
instants give the same completion with different duration strings, so the
full event sequences (durations included) differ. -/
theorem C8_counterexample :
    ([(stateOnly "PRINTING", 0), (stateOnly "IDLE", 60)].map Prod.fst
        = [(stateOnly "PRINTING", 0), (stateOnly "IDLE", 180)].map Prod.fst)
    ∧ ((update_status_run "P" [(stateOnly "PRINTING", 0), (stateOnly "IDLE", 60)]
        none none).2.2).map (fun e => e.duration) = [some "1m"]
    ∧ ((update_status_run "P" [(stateOnly "PRINTING", 0), (stateOnly "IDLE", 180)]
        none none).2.2).map (fun e => e.duration) = [some "3m"]
    ∧ (update_status_run "P" [(stateOnly "PRINTING", 0), (stateOnly "IDLE", 60)]
        none none).2.2 ≠
      (update_status_run "P" [(stateOnly "PRINTING", 0), (stateOnly "IDLE", 180)]
        none none).2.2 := by decide

theorem C8_replay_invariance_witness :
    ((update_status_run "P" [(stateOnly "PRINTING", 0), (stateOnly "IDLE", 60)]
        none none).2.2).map eraseDuration =
      ((update_status_run "P" [(stateOnly "PRINTING", 5), (stateOnly "IDLE", 300)]
        none none).2.2).map eraseDuration :=
  C8_replay_invariance "P"
    [(stateOnly "PRINTING", 0), (stateOnly "IDLE", 60)]
    [(stateOnly "PRINTING", 5), (stateOnly "IDLE", 300)] (by decide)

end PrinterBot
